import Mathlib

/-!
Shallow embedding of `src/gluster.rs` (the Gfapi-sys Rust wrapper around the
libgfapi client library), together with theorems settling the specification
claims about it.

Conventions of the embedding:
* Byte strings (`ByteStr`) are `List Nat`, one element per byte; Rust `&str`
  and `Path` inputs are represented by their UTF-8 bytes.
* Native pointers are `Option Nat`: `none` is the null pointer.
* Each embedded operation returns its Rust result together with the list of
  glfs native calls it issued, so that "no native call before failure" and
  "exactly one native call" are statable.  The native layer's behaviour is a
  parameter (return codes, written bytes), constrained only where the C API
  contract fixes it.
* Text decoding (`to_string_lossy`) is modelled at the byte level: results
  carry the byte content of the decoded text.
-/

namespace Gfapi

/-- Byte strings: the byte content of Rust strings and C strings. -/
abbrev ByteStr := List Nat

/-- Pointer model: `none` is the null pointer, `some p` a non-null native pointer. -/
abbrev Ptr := Option Nat

/-- The error type of the wrapper, restricted to the variants the claims touch:
`nulErr` is `GlusterError::NulError` (interior NUL in an input string), and
`errMsg s` is `GlusterError::Error(s)` with `s` the rendering of the last-error
slot (`get_error()`), or a fixed message. -/
inductive GlusterError where
  | nulErr
  | errMsg (msg : String)
  deriving DecidableEq, Repr

/-- The glfs native calls the embedded operations can issue, recorded with the
marshalled arguments they receive. -/
inductive NativeCall where
  | glfsNew (vol : ByteStr)
  | setVolfileServer (transport host : ByteStr) (port : Nat)
  | glfsInit
  | glfsFini (handle : Nat)
  | glfsOpen (path : ByteStr) (flags : Int)
  | glfsCreat (path : ByteStr) (flags : Int) (mode : Nat)
  | glfsOpendir (path : ByteStr)
  | glfsRename (oldp newp : ByteStr)
  | glfsLink (oldp newp : ByteStr)
  | glfsSymlink (oldp newp : ByteStr)
  | glfsGetxattr (path name : ByteStr) (size : Nat)
  | glfsListxattr (path : ByteStr) (size : Nat)
  | glfsRead (count : Nat)
  | glfsLseek (offset : Int) (whence : Int)
  | glfsChdir (path : ByteStr)
  | glfsGetcwd (size : Nat)
  | glfsDup
  deriving DecidableEq, Repr

/-- `CString::new` on the bytes of a Rust string: fails (with Rust's `NulError`,
which `From<NulError>` turns into `GlusterError::NulError`) iff the bytes
contain an interior NUL; otherwise the C string is the input bytes plus the
trailing terminator. -/
def cstringNew (s : ByteStr) : Except GlusterError ByteStr :=
  if 0 ∈ s then .error .nulErr else .ok (s ++ [0])

theorem cstringNew_of_mem {s : ByteStr} (h : 0 ∈ s) :
    cstringNew s = .error .nulErr := by
  simp [cstringNew, h]

theorem cstringNew_of_not_mem {s : ByteStr} (h : 0 ∉ s) :
    cstringNew s = .ok (s ++ [0]) := by
  simp [cstringNew, h]

/-! ## Connection lifecycle: `Gluster::disconnect` and `impl Drop for Gluster`

`Gluster` holds one field, `cluster_handle : *mut Struct_glfs`.  Both
`disconnect` and `Drop::drop` run the same code: if the handle is null, return;
otherwise call `glfs_fini(self.cluster_handle)`.  `disconnect` takes `self` by
value, and the body neither forgets `self` nor nulls the handle, so when the
body finishes, Rust drops the moved-in `self`, running `Drop for Gluster` on
the same, unchanged handle. -/

/-- Body of `Gluster::disconnect` (also the body of `Drop::drop`): the glfs
calls it issues on a `Gluster` whose `cluster_handle` is `h`. -/
def disconnectBody (h : Ptr) : List NativeCall :=
  match h with
  | none => []
  | some p => [.glfsFini p]

/-- `Drop for Gluster`: null check, then `glfs_fini` on the handle. -/
def dropGluster (h : Ptr) : List NativeCall :=
  match h with
  | none => []
  | some p => [.glfsFini p]

/-- Total native trace of calling `disconnect(self)` on a `Gluster` with handle
`h`: the explicit body runs first, and then the scope-exit drop of the consumed
`self` runs `Drop for Gluster` on the same handle, because the body neither
forgets `self` nor clears `cluster_handle`. -/
def disconnectCalls (h : Ptr) : List NativeCall :=
  disconnectBody h ++ dropGluster h

/-- Number of `glfs_fini` releases of the pointer `p` occurring in a trace. -/
def finiCount (p : Nat) (t : List NativeCall) : Nat :=
  (t.filter (fun c => c = NativeCall.glfsFini p)).length

/-! ## Directory iteration: `impl Iterator for GlusterDirectory`

`next` zeroes a stack `dirent` buffer, calls
`glfs_readdir_r(self.dir_handle, &mut dirent, &mut next_entry)`, and

* if the return code is negative, calls `glfs_closedir` and returns `None`;
* otherwise calls `glfs_telldir` and returns `Some` of a `DirEntry` built from
  the `dirent` buffer (`d_name` read as a C string, `d_ino`, `d_type`) —
  without inspecting the lookahead pointer `next_entry`.

The healthy native stream is modelled by the list of its remaining raw
entries. -/

/-- A raw `dirent` record: the `d_name` byte array (NUL-padded), `d_ino`,
`d_type`. -/
structure Dirent where
  name : ByteStr
  ino : Nat
  dtype : Nat
  deriving DecidableEq, Repr

/-- The zeroed `dirent` stack buffer `next` allocates before the native call:
`d_name` is an all-zero 256-byte array, `d_ino` and `d_type` are zero. -/
def zeroDirent : Dirent :=
  { name := List.replicate 256 0, ino := 0, dtype := 0 }

/-- `CStr::from_ptr` on a `d_name` array followed by lossy text decoding: the
bytes up to the first NUL. -/
def cstrBytes (s : ByteStr) : ByteStr :=
  s.takeWhile (fun b => b ≠ 0)

/-- `glfs_readdir_r` on a healthy directory stream holding the remaining
entries `s`.  On a non-empty stream it returns 0, fills the caller's `dirent`
buffer with the next entry and sets the lookahead pointer non-null; at end of
stream it returns 0, leaves the buffer untouched and sets the lookahead pointer
to null.  Result: (return code, lookahead pointer paired with the buffer
content it implies, remaining stream). -/
def readdirR (s : List Dirent) : Int × Option Dirent × List Dirent :=
  match s with
  | [] => (0, none, [])
  | e :: rest => (0, some e, rest)

/-- The `DirEntry` value `next` yields: decoded `path`, `inode`, `file_type`. -/
structure DirEntry where
  path : ByteStr
  inode : Nat
  fileType : Nat
  deriving DecidableEq, Repr

/-- `GlusterDirectory::next` on a healthy stream `s`.  Faithful to the source:
the only check is `ret_code < 0`; on a non-negative return the entry is built
from the `dirent` buffer, which holds the produced entry when the lookahead
pointer is non-null and is still the zeroed buffer at end of stream. -/
def dirNext (s : List Dirent) : Option DirEntry × List Dirent :=
  let buf := zeroDirent
  let r := readdirR s
  if r.1 < 0 then
    (none, r.2.2)
  else
    let filled :=
      match r.2.1 with
      | some e => e
      | none => buf
    (some { path := cstrBytes filled.name, inode := filled.ino,
            fileType := filled.dtype }, r.2.2)

/-- The first `k` outputs of repeatedly calling `next` on stream `s`. -/
def dirIterate : Nat → List Dirent → List (Option DirEntry)
  | 0, _ => []
  | k + 1, s =>
    let r := dirNext s
    r.1 :: dirIterate k r.2

/-- A concrete one-entry directory: a file named "a" (d_name = 'a' then NUL
padding), inode 5, type tag 8 (regular file). -/
def sampleEntry : Dirent :=
  { name := 97 :: List.replicate 255 0, ino := 5, dtype := 8 }

/-! ## Extended attributes: `getxattr` / `listxattr`

Each get/list operation allocates `Vec::with_capacity(1024)` — a vector with
capacity 1024 but length 0 — and passes `xattr_val_buff.as_mut_ptr()` together
with `xattr_val_buff.len()` as the size argument of the native call.  On a
non-negative return `ret_code` it runs `set_len(ret_code)` and lossily decodes
the vector. -/

/-- Capacity of the xattr buffer: `Vec::with_capacity(1024)`. -/
def xattrBufCapacity : Nat := 1024

/-- Length of the freshly allocated xattr buffer, i.e. the value of
`xattr_val_buff.len()` that the source passes as the size argument:
`Vec::with_capacity(1024)` has length 0. -/
def xattrBufLen : Nat := 0

/-- Contract of the native get/list xattr calls on a stored byte value `value`
and a caller-supplied buffer size `size` (the standard xattr convention):
size 0 is a probe — the call returns the value's byte length and writes
nothing; a size at least the value's length copies the value and returns its
length; a positive size smaller than the value fails with a negative code
(ERANGE = 34).  Result: (return code, bytes written into the buffer). -/
def xattrCallSem (value : ByteStr) (size : Nat) : Int × ByteStr :=
  if size = 0 then ((value.length : Int), [])
  else if value.length ≤ size then ((value.length : Int), value)
  else (-34, [])

/-- `Gluster::getxattr`.  `value` is the attribute's stored bytes and `garbage`
the uninitialised content of the 1024-byte allocation; on success `set_len`
exposes the first `ret_code` bytes of the allocation (the bytes the native
call wrote, then whatever was there before). -/
def getxattrEmbed (pathB nameB value garbage : ByteStr) (lastError : String) :
    Except GlusterError ByteStr × List NativeCall :=
  match cstringNew pathB with
  | .error e => (.error e, [])
  | .ok cpath =>
    match cstringNew nameB with
    | .error e => (.error e, [])
    | .ok cname =>
      let r := xattrCallSem value xattrBufLen
      let trace := [NativeCall.glfsGetxattr cpath cname xattrBufLen]
      if r.1 < 0 then (.error (.errMsg lastError), trace)
      else (.ok ((r.2 ++ garbage).take r.1.toNat), trace)

/-- `Gluster::listxattr`: same buffer handling as `getxattr`, one path
argument, `value` being the concatenated attribute-name list the native layer
would report. -/
def listxattrEmbed (pathB value garbage : ByteStr) (lastError : String) :
    Except GlusterError ByteStr × List NativeCall :=
  match cstringNew pathB with
  | .error e => (.error e, [])
  | .ok cpath =>
    let r := xattrCallSem value xattrBufLen
    let trace := [NativeCall.glfsListxattr cpath xattrBufLen]
    if r.1 < 0 then (.error (.errMsg lastError), trace)
    else (.ok ((r.2 ++ garbage).take r.1.toNat), trace)

/-! ## `open`, `create`, `opendir`

`open` and `opendir` marshal the path, issue the native call and return
`Ok(file_handle)` with no null check; `create` additionally checks
`file_handle.is_null()` and returns `Err(GlusterError::new(get_error()))` on a
null capability.  The handle the native call produces is the parameter
`native`. -/

/-- `Gluster::open`. -/
def openEmbed (pathB : ByteStr) (flags : Int) (native : Ptr) :
    Except GlusterError Ptr × List NativeCall :=
  match cstringNew pathB with
  | .error e => (.error e, [])
  | .ok cpath => (.ok native, [.glfsOpen cpath flags])

/-- `Gluster::create`. -/
def createEmbed (pathB : ByteStr) (flags : Int) (mode : Nat) (native : Ptr)
    (lastError : String) : Except GlusterError Ptr × List NativeCall :=
  match cstringNew pathB with
  | .error e => (.error e, [])
  | .ok cpath =>
    if native = none then (.error (.errMsg lastError), [.glfsCreat cpath flags mode])
    else (.ok native, [.glfsCreat cpath flags mode])

/-- `Gluster::opendir`. -/
def opendirEmbed (pathB : ByteStr) (native : Ptr) :
    Except GlusterError Ptr × List NativeCall :=
  match cstringNew pathB with
  | .error e => (.error e, [])
  | .ok cpath => (.ok native, [.glfsOpendir cpath])

/-! ## `chdir`, `lseek`, `getcwd` -/

/-- `Gluster::chdir`: marshal, one `glfs_chdir` call returning `ret`, negative
means `Err(get_error())`, otherwise `Ok(())`. -/
def chdirEmbed (pathB : ByteStr) (ret : Int) (lastError : String) :
    Except GlusterError Unit × List NativeCall :=
  match cstringNew pathB with
  | .error e => (.error e, [])
  | .ok cpath =>
    if ret < 0 then (.error (.errMsg lastError), [.glfsChdir cpath])
    else (.ok (), [.glfsChdir cpath])

/-- `Gluster::lseek`: one `glfs_lseek` call returning the new offset `ret`;
negative means `Err(get_error())`, otherwise `Ok(ret)`. -/
def lseekEmbed (offset whence ret : Int) (lastError : String) :
    Except GlusterError Int × List NativeCall :=
  if ret < 0 then (.error (.errMsg lastError), [.glfsLseek offset whence])
  else (.ok ret, [.glfsLseek offset whence])

/-- `Gluster::getcwd`: allocates `Vec::with_capacity(1024)` (length 0), issues
one `glfs_getcwd` call with size `len() = 0`, and unconditionally builds
`Ok(CStr::from_ptr(cwd)...)` from the returned pointer.  There is no error
branch: a null return is dereferenced, which is undefined behaviour, modelled
by the outer `none`; a non-null return (pointing at C-string bytes `s`) yields
`Ok` of the decoded bytes. -/
def getcwdEmbed (native : Option ByteStr) :
    Option (Except GlusterError ByteStr) × List NativeCall :=
  match native with
  | none => (none, [.glfsGetcwd 0])
  | some s => (some (.ok (cstrBytes s)), [.glfsGetcwd 0])

/-! ## Two-path operations: `rename`, `link`, `symlink`

Each marshals both paths with `CString::new` before entering the unsafe block,
then issues its single native call and applies the negative-means-error
rule. -/

/-- `Gluster::rename`. -/
def renameEmbed (oldB newB : ByteStr) (ret : Int) (lastError : String) :
    Except GlusterError Unit × List NativeCall :=
  match cstringNew oldB with
  | .error e => (.error e, [])
  | .ok co =>
    match cstringNew newB with
    | .error e => (.error e, [])
    | .ok cn =>
      if ret < 0 then (.error (.errMsg lastError), [.glfsRename co cn])
      else (.ok (), [.glfsRename co cn])

/-- `Gluster::link`. -/
def linkEmbed (oldB newB : ByteStr) (ret : Int) (lastError : String) :
    Except GlusterError Unit × List NativeCall :=
  match cstringNew oldB with
  | .error e => (.error e, [])
  | .ok co =>
    match cstringNew newB with
    | .error e => (.error e, [])
    | .ok cn =>
      if ret < 0 then (.error (.errMsg lastError), [.glfsLink co cn])
      else (.ok (), [.glfsLink co cn])

/-- `Gluster::symlink`. -/
def symlinkEmbed (oldB newB : ByteStr) (ret : Int) (lastError : String) :
    Except GlusterError Unit × List NativeCall :=
  match cstringNew oldB with
  | .error e => (.error e, [])
  | .ok co =>
    match cstringNew newB with
    | .error e => (.error e, [])
    | .ok cn =>
      if ret < 0 then (.error (.errMsg lastError), [.glfsSymlink co cn])
      else (.ok (), [.glfsSymlink co cn])

/-! ## `read`

`glfs_read` is given the buffer pointer and `count`; after the call the
buffer's allocation holds `mem` (the bytes the native call wrote, followed by
whatever was there before) and the call returned `ret`.  On a negative `ret`
the wrapper returns `Err(get_error())`; otherwise it runs
`fill_buffer.set_len(ret)` — making the vector the first `ret` bytes of the
allocation — and returns `Ok(ret)`.  The result pairs the returned count with
the buffer content after the call. -/
def readEmbed (mem : ByteStr) (count : Nat) (ret : Int) (lastError : String) :
    Except GlusterError (Int × ByteStr) × List NativeCall :=
  if ret < 0 then (.error (.errMsg lastError), [.glfsRead count])
  else (.ok (ret, mem.take ret.toNat), [.glfsRead count])

/-! ## `connect`

`Gluster::connect(volume_name, server, port)` marshals the volume name, the
fixed transport string "tcp" and the server host — all three before any native
call — then: `glfs_new` (null means `Err(Error("glfs_new failed"))`),
`glfs_set_volfile_server` (negative means `Err(get_error())`), `glfs_init`
(negative means `Err(get_error())`), and on success returns the wrapper owning
the handle.  No `glfs_fini` is issued on any path of `connect` itself. -/

/-- Bytes of the fixed transport string "tcp". -/
def tcpBytes : ByteStr := [116, 99, 112]

/-- `Gluster::connect`.  `newPtr` is what `glfs_new` returns, `volfileRet` and
`initRet` the return codes of the two subsequent calls. -/
def connectEmbed (vol host : ByteStr) (port : Nat) (newPtr : Ptr)
    (volfileRet initRet : Int) (lastError : String) :
    Except GlusterError Ptr × List NativeCall :=
  match cstringNew vol with
  | .error e => (.error e, [])
  | .ok cvol =>
    match cstringNew tcpBytes with
    | .error e => (.error e, [])
    | .ok ctrans =>
      match cstringNew host with
      | .error e => (.error e, [])
      | .ok chost =>
        match newPtr with
        | none => (.error (.errMsg "glfs_new failed"), [.glfsNew cvol])
        | some h =>
          if volfileRet < 0 then
            (.error (.errMsg lastError),
             [.glfsNew cvol, .setVolfileServer ctrans chost port])
          else if initRet < 0 then
            (.error (.errMsg lastError),
             [.glfsNew cvol, .setVolfileServer ctrans chost port, .glfsInit])
          else
            (.ok (some h),
             [.glfsNew cvol, .setVolfileServer ctrans chost port, .glfsInit])

/-! ## `dup`

`Gluster::dup` issues one `glfs_dup` call and returns `Ok(file_handle)` with
no null check, no negative-code check, and no read of the last-error slot. -/

/-- `Gluster::dup`: `native` is whatever capability `glfs_dup` produced. -/
def dupEmbed (native : Ptr) : Except GlusterError Ptr × List NativeCall :=
  (.ok native, [.glfsDup])

/-- Marshalling the fixed transport string "tcp" always succeeds. -/
theorem cstringNew_tcp : cstringNew tcpBytes = .ok (tcpBytes ++ [0]) := rfl

/-! ## Claim theorems -/

/-- C1: the claim says calling `disconnect(self)` releases the native context
exactly once in total, counting both the explicit release in the body and the
scope-exit `Drop` of the consumed value, so no double release of a non-null
`cluster_handle` is possible.  On the code, the body of `disconnect` calls
`glfs_fini` and then the drop of the moved-in `self` calls `glfs_fini` again on
the same, unchanged handle: the handle `7` is released twice, not once. -/
theorem c1_disconnect_releases_twice :
    finiCount 7 (disconnectCalls (some 7)) = 2 ∧
    finiCount 7 (disconnectCalls (some 7)) ≠ 1 := by
  constructor <;> decide

/-- C2: the claim says iterating a directory with N entries yields exactly N
entries and then `None`, with `next` transitioning to the exhausted state when
the native lookahead call signals end of stream.  On the code, `next` checks
only for a negative return code and never inspects the lookahead pointer, so
at end of stream it builds an entry from the still-zeroed `dirent` buffer: a
one-entry directory yields its entry and then `Some` of the empty-named zero
entry forever, never `None`, and even on the empty stream the first call
already returns `Some`. -/
theorem c2_eof_yields_entry_not_none :
    dirIterate 3 [sampleEntry] =
      [some { path := [97], inode := 5, fileType := 8 },
       some { path := [], inode := 0, fileType := 0 },
       some { path := [], inode := 0, fileType := 0 }] ∧
    (dirNext []).1 ≠ none := by
  constructor <;> decide

/-- C3: the claim says every xattr get/list operation issues its native call
with a 1024-byte buffer capacity, so a stored value of at most 1024 bytes is
returned in full.  On the code, `Vec::with_capacity(1024)` has length 0 and the
source passes `xattr_val_buff.len()` — 0 — as the size argument: for the
5-byte stored value "value" the native probe call returns 5 without writing
anything, `set_len(5)` exposes five bytes of the uninitialised allocation
(here filled with the byte 7), and the returned bytes are not the stored
value; the size recorded in the native trace is 0, while the buffer capacity
is 1024.  `listxattr` behaves identically. -/
theorem c3_xattr_size_zero_not_1024 :
    getxattrEmbed [112] [110] [118, 97, 108, 117, 101] (List.replicate 1024 7)
        "e" =
      (.ok [7, 7, 7, 7, 7], [NativeCall.glfsGetxattr [112, 0] [110, 0] 0]) ∧
    ([7, 7, 7, 7, 7] : ByteStr) ≠ [118, 97, 108, 117, 101] ∧
    xattrBufLen = 0 ∧
    xattrBufCapacity = 1024 ∧
    listxattrEmbed [112] [117, 46, 97] (List.replicate 1024 7) "e" =
      (.ok [7, 7, 7], [NativeCall.glfsListxattr [112, 0] 0]) := by
  exact ⟨rfl, by decide, rfl, rfl, rfl⟩

/-- C4: `create` returns an error sourced from the last-error slot whenever the
native call yields a null capability, while `open` and `opendir` perform no
null check and return `Ok` of whatever capability — possibly null — the native
call produced, for every path without an interior terminator. -/
theorem c4_create_checks_null_open_opendir_do_not (p : ByteStr) (hp : 0 ∉ p)
    (flags : Int) (mode : Nat) (native : Ptr) (le : String) :
    (createEmbed p flags mode none le).1 = .error (.errMsg le) ∧
    (native ≠ none → (createEmbed p flags mode native le).1 = .ok native) ∧
    (openEmbed p flags native).1 = .ok native ∧
    (opendirEmbed p native).1 = .ok native := by
  refine ⟨?_, ?_, ?_, ?_⟩
  · simp [createEmbed, cstringNew_of_not_mem hp]
  · intro hn
    simp [createEmbed, cstringNew_of_not_mem hp, hn]
  · simp [openEmbed, cstringNew_of_not_mem hp]
  · simp [opendirEmbed, cstringNew_of_not_mem hp]

/-- C4 witness: `create` on path "a" with a null native capability fails with
the rendered last error. -/
theorem c4_create_checks_null_witness :
    (createEmbed [97] 0 0 none "e").1 = .error (.errMsg "e") :=
  (c4_create_checks_null_open_opendir_do_not [97] (by decide) 0 0 none "e").1

/-- C5: each operation issues exactly one native call and classifies its
result uniformly — a negative result yields `Err(Error(get_error()))`, a
non-negative result or non-null capability yields success with the value
derived from the result — shown here for the operations the claim singles out:
`chdir`, `lseek`, and `getcwd` (whose native call returns a pointer, so the
only classification it admits is non-null implies success). -/
theorem c5_uniform_classification (p : ByteStr) (hp : 0 ∉ p)
    (ret lret offset whence : Int) (s : ByteStr) (le : String) :
    (chdirEmbed p ret le).2.length = 1 ∧
    (ret < 0 → (chdirEmbed p ret le).1 = .error (.errMsg le)) ∧
    (0 ≤ ret → (chdirEmbed p ret le).1 = .ok ()) ∧
    (lseekEmbed offset whence lret le).2.length = 1 ∧
    (lret < 0 → (lseekEmbed offset whence lret le).1 = .error (.errMsg le)) ∧
    (0 ≤ lret → (lseekEmbed offset whence lret le).1 = .ok lret) ∧
    (getcwdEmbed (some s)).2.length = 1 ∧
    (getcwdEmbed (some s)).1 = some (.ok (cstrBytes s)) := by
  have hc := cstringNew_of_not_mem hp
  refine ⟨?_, ?_, ?_, ?_, ?_, ?_, ?_, ?_⟩
  · by_cases hr : ret < 0 <;> simp [chdirEmbed, hc, hr]
  · intro hr
    simp [chdirEmbed, hc, hr]
  · intro hr
    have hr' := not_lt.mpr hr
    simp [chdirEmbed, hc, hr']
  · by_cases hr : lret < 0 <;> simp [lseekEmbed, hr]
  · intro hr
    simp [lseekEmbed, hr]
  · intro hr
    have hr' := not_lt.mpr hr
    simp [lseekEmbed, hr']
  · simp [getcwdEmbed]
  · simp [getcwdEmbed]

/-- C5 witness: `chdir` on path "a" with native return -1 yields the rendered
last error. -/
theorem c5_uniform_classification_witness :
    (chdirEmbed [97] (-1) "e").1 = .error (.errMsg "e") :=
  (c5_uniform_classification [97] (by decide) (-1) 0 0 0 [] "e").2.1 (by decide)

/-- C6: every operation taking a string with an interior terminator fails with
the `NulError` variant before any native call is issued, and for the two-path
operations `rename`, `link`, `symlink` both endpoints are marshalled before
any native call, so a terminator in either endpoint aborts with an empty
native trace; likewise for `getxattr` (path and attribute name) and `connect`
(volume name and server host). -/
theorem c6_interior_nul_blocks_native_call
    (a b p n vol host value garbage : ByteStr)
    (hab : 0 ∈ a ∨ 0 ∈ b) (hpn : 0 ∈ p ∨ 0 ∈ n) (hvh : 0 ∈ vol ∨ 0 ∈ host)
    (ret : Int) (le : String) (port : Nat) (np : Ptr) (vr ir : Int) :
    renameEmbed a b ret le = (.error .nulErr, []) ∧
    linkEmbed a b ret le = (.error .nulErr, []) ∧
    symlinkEmbed a b ret le = (.error .nulErr, []) ∧
    getxattrEmbed p n value garbage le = (.error .nulErr, []) ∧
    connectEmbed vol host port np vr ir le = (.error .nulErr, []) := by
  refine ⟨?_, ?_, ?_, ?_, ?_⟩
  · by_cases ha : 0 ∈ a
    · simp [renameEmbed, cstringNew_of_mem ha]
    · have hb := hab.resolve_left ha
      simp [renameEmbed, cstringNew_of_not_mem ha, cstringNew_of_mem hb]
  · by_cases ha : 0 ∈ a
    · simp [linkEmbed, cstringNew_of_mem ha]
    · have hb := hab.resolve_left ha
      simp [linkEmbed, cstringNew_of_not_mem ha, cstringNew_of_mem hb]
  · by_cases ha : 0 ∈ a
    · simp [symlinkEmbed, cstringNew_of_mem ha]
    · have hb := hab.resolve_left ha
      simp [symlinkEmbed, cstringNew_of_not_mem ha, cstringNew_of_mem hb]
  · by_cases hq : 0 ∈ p
    · simp [getxattrEmbed, cstringNew_of_mem hq]
    · have hm := hpn.resolve_left hq
      simp [getxattrEmbed, cstringNew_of_not_mem hq, cstringNew_of_mem hm]
  · by_cases hv : 0 ∈ vol
    · simp [connectEmbed, cstringNew_of_mem hv]
    · have hh := hvh.resolve_left hv
      simp [connectEmbed, cstringNew_of_not_mem hv, cstringNew_tcp,
        cstringNew_of_mem hh]

/-- C6 witness: `rename` with a NUL byte in the old path fails with `NulError`
and an empty native trace. -/
theorem c6_interior_nul_blocks_native_call_witness :
    renameEmbed [0] [98] 0 "e" = (.error .nulErr, []) :=
  (c6_interior_nul_blocks_native_call [0] [98] [0] [110] [0] [104] [] []
    (by decide) (by decide) (by decide) 0 "e" 1 none 0 0).1

/-- C7: a partial read is data, not an error — when the native call wrote the
bytes `w` into the buffer (in front of whatever content `g` the allocation
held) and returned their count, with that count below the requested `count`,
`read` returns `Ok` of the count and the buffer's logical content is exactly
`w`: its length is the returned count and it carries no garbage tail. -/
theorem c7_partial_read_shrinks_buffer (w g : ByteStr) (count : Nat)
    (le : String) (h : w.length < count) :
    (readEmbed (w ++ g) count (w.length : Int) le).1 =
      .ok ((w.length : Int), w) := by
  have h0 : ¬ ((w.length : Int) < 0) := not_lt.mpr (Int.natCast_nonneg _)
  simp [readEmbed, h0, List.take_left]

/-- C7 witness: reading 2 of 3 requested bytes leaves the buffer content
exactly the 2 bytes read. -/
theorem c7_partial_read_shrinks_buffer_witness :
    (readEmbed [5, 6, 9] 3 2 "e").1 = .ok (2, [5, 6]) :=
  c7_partial_read_shrinks_buffer [5, 6] [9] 3 "e" (by decide)

/-- C8: when `connect` fails at any stage — null context from `glfs_new`,
negative result from `glfs_set_volfile_server`, or negative result from
`glfs_init` — it returns an error (`Error("glfs_new failed")` for the null
allocation, otherwise the rendered last error) and returns no connection
wrapper. -/
theorem c8_connect_failure_paths (vol host : ByteStr) (hv : 0 ∉ vol)
    (hh : 0 ∉ host) (port : Nat) (vr ir : Int) (le : String) (h : Nat) :
    (connectEmbed vol host port none vr ir le).1 =
      .error (.errMsg "glfs_new failed") ∧
    (vr < 0 → (connectEmbed vol host port (some h) vr ir le).1 =
      .error (.errMsg le)) ∧
    (0 ≤ vr → ir < 0 → (connectEmbed vol host port (some h) vr ir le).1 =
      .error (.errMsg le)) ∧
    (∀ st, (connectEmbed vol host port none vr ir le).1 ≠ .ok st) := by
  have hcv := cstringNew_of_not_mem hv
  have hch := cstringNew_of_not_mem hh
  refine ⟨?_, ?_, ?_, ?_⟩
  · simp [connectEmbed, hcv, hch, cstringNew_tcp]
  · intro hr
    simp [connectEmbed, hcv, hch, cstringNew_tcp, hr]
  · intro hr hi
    have hr' := not_lt.mpr hr
    simp [connectEmbed, hcv, hch, cstringNew_tcp, hr', hi]
  · intro st
    simp [connectEmbed, hcv, hch, cstringNew_tcp]

/-- C8 witness: `connect` with volume "v" and host "h" whose `glfs_new`
returns null fails with the fixed message and hands back no wrapper. -/
theorem c8_connect_failure_paths_witness :
    (connectEmbed [118] [104] 24007 none 0 0 "e").1 =
      .error (.errMsg "glfs_new failed") :=
  (c8_connect_failure_paths [118] [104] (by decide) (by decide) 24007 0 0 "e"
    1).1

/-- C9: for every path string without an interior terminator, marshalling
succeeds and the marshalled byte sequence is byte-identical to the input plus
the trailing terminator; the native call then receives exactly those bytes,
shown on `chdir` whichever way its native call resolves. -/
theorem c9_marshalling_byte_identity (p : ByteStr) (hp : 0 ∉ p) (ret : Int)
    (le : String) :
    cstringNew p = .ok (p ++ [0]) ∧
    (chdirEmbed p ret le).2 = [NativeCall.glfsChdir (p ++ [0])] := by
  refine ⟨cstringNew_of_not_mem hp, ?_⟩
  by_cases hr : ret < 0 <;> simp [chdirEmbed, cstringNew_of_not_mem hp, hr]

/-- C9 witness: the two-byte path "hi" marshals to its own bytes plus the
terminator. -/
theorem c9_marshalling_byte_identity_witness :
    cstringNew [104, 105] = .ok [104, 105, 0] :=
  (c9_marshalling_byte_identity [104, 105] (by decide) 0 "e").1

/-- C10: `dup` never fails — for every capability the native duplication call
produces, including the null one, `dup` returns `Ok` of that capability after
its single native call; no error variant and no read of the last-error slot
occurs on any path. -/
theorem c10_dup_never_fails (native : Ptr) :
    dupEmbed native = (.ok native, [.glfsDup]) := rfl

end Gfapi
